import Mathlib

/-!
Verification development for the PiTodoist task/timer/sync core
(`src/storage.py`, `src/task_state.py`, `src/time_tracking.py`,
`src/todoist_sync.py`, `src/task_manager.py`, `src/background_sync.py`).

The Python modules are shallowly embedded as pure Lean functions over an
explicit store state.  Persisted JSON collections become Lean lists and
structures; every stateful operation takes the store as an argument and
returns the updated store together with its boolean result.  Wall-clock
reads (`datetime.utcnow()`) become explicit `now` string parameters, and
the generated uuid-based entry ids become explicit parameters as well.
Persistence writes are modelled as succeeding; every operation examined
here performs its validity checks before its first write, so the failure
paths under study are unaffected.
-/

/-! ## Timestamps

`_calculate_duration` parses its arguments with
`datetime.fromisoformat(s.replace("Z", "+00:00"))`.  The functions below
embed CPython 3.10's `fromisoformat` grammar:
`YYYY-MM-DD[<sep>HH[:MM[:SS[.fff[fff]]]][+HH:MM[:SS[.ffffff]]]]`, with
range validation of the date and time fields and of the offset.  A parsed
value is kept as wall-clock microseconds (proleptic Gregorian) plus an
optional UTC offset in microseconds; a datetime with an offset is "aware",
one without is "naive", and subtracting a naive from an aware datetime (or
vice versa) raises `TypeError` in Python, which `_calculate_duration`
catches and turns into `0`.
-/

structure PyDateTime where
  wall_us : Int
  off : Option Int
deriving DecidableEq, Repr

def digitVal (c : Char) : Nat := c.toNat - '0'.toNat

def read2 : List Char → Option (Nat × List Char)
  | c1 :: c2 :: rest =>
    if c1.isDigit && c2.isDigit then some (digitVal c1 * 10 + digitVal c2, rest) else none
  | _ => none

/-- Fractional seconds: exactly 3 or 6 digits, returned in microseconds. -/
def readFrac : List Char → Option (Nat × List Char)
  | a :: b :: c :: rest =>
    if a.isDigit && b.isDigit && c.isDigit then
      let m := (digitVal a * 10 + digitVal b) * 10 + digitVal c
      match rest with
      | d :: e :: f :: rest2 =>
        if d.isDigit && e.isDigit && f.isDigit then
          some (m * 1000 + ((digitVal d * 10 + digitVal e) * 10 + digitVal f), rest2)
        else some (m * 1000, rest)
      | _ => some (m * 1000, rest)
    else none
  | _ => none

/-- Fractional seconds in a UTC offset: exactly 6 digits (microseconds). -/
def readFrac6 : List Char → Option (Nat × List Char)
  | a :: b :: c :: d :: e :: f :: rest =>
    if a.isDigit && b.isDigit && c.isDigit && d.isDigit && e.isDigit && f.isDigit then
      some ((((((digitVal a * 10 + digitVal b) * 10 + digitVal c) * 10
        + digitVal d) * 10 + digitVal e) * 10 + digitVal f), rest)
    else none
  | _ => none

def isLeap (y : Nat) : Bool := y % 4 == 0 && (y % 100 != 0 || y % 400 == 0)

def daysInMonth (y m : Nat) : Nat :=
  if m = 2 then (if isLeap y then 29 else 28)
  else if m = 4 ∨ m = 6 ∨ m = 9 ∨ m = 11 then 30
  else 31

def daysBeforeMonth (y m : Nat) : Nat :=
  (List.range (m - 1)).foldl (fun acc i => acc + daysInMonth y (i + 1)) 0

/-- Days from 0001-01-01 to the given date (Python's `toordinal() - 1`). -/
def daysBeforeDate (y m d : Nat) : Nat :=
  365 * (y - 1) + (y - 1) / 4 - (y - 1) / 100 + (y - 1) / 400 + daysBeforeMonth y m + (d - 1)

/-- Parse the leading `YYYY-MM-DD`, validating the field ranges. -/
def parseDate10 : List Char → Option (Nat × Nat × Nat × List Char)
  | a :: b :: c :: d :: s1 :: e :: f :: s2 :: g :: h :: rest =>
    if a.isDigit && b.isDigit && c.isDigit && d.isDigit && (s1 == '-')
        && e.isDigit && f.isDigit && (s2 == '-') && g.isDigit && h.isDigit then
      let y := ((digitVal a * 10 + digitVal b) * 10 + digitVal c) * 10 + digitVal d
      let mo := digitVal e * 10 + digitVal f
      let dy := digitVal g * 10 + digitVal h
      if 1 ≤ y ∧ 1 ≤ mo ∧ mo ≤ 12 ∧ 1 ≤ dy ∧ dy ≤ daysInMonth y mo then
        some (y, mo, dy, rest)
      else none
    else none
  | _ => none

/-- Parse the offset tail `HH:MM[:SS[.ffffff]]` (sign already consumed),
returning nonnegative offset microseconds; must consume the whole input. -/
def parseOffset (cs : List Char) : Option Int := do
  let (h, cs1) ← read2 cs
  match cs1 with
  | ':' :: cs2 => do
    let (mi, cs3) ← read2 cs2
    match cs3 with
    | [] => some (((h * 3600 + mi * 60) * 1000000 : Nat) : Int)
    | ':' :: cs4 => do
      let (s, cs5) ← read2 cs4
      match cs5 with
      | [] => some (((h * 3600 + mi * 60 + s) * 1000000 : Nat) : Int)
      | '.' :: cs6 => do
        let (fr, cs7) ← readFrac6 cs6
        if cs7 = [] then some ((((h * 3600 + mi * 60 + s) * 1000000 + fr : Nat)) : Int)
        else none
      | _ => none
    | _ => none
  | _ => none

/-- Parse `HH[:MM[:SS[.fff[fff]]]][±offset]`, returning microseconds into
the day and the optional signed UTC offset in microseconds. -/
def parseTimeOff (cs : List Char) : Option (Int × Option Int) := do
  let (h, cs1) ← read2 cs
  let (mi, s, fr, rest) ←
    match cs1 with
    | ':' :: cs2 => do
      let (mi, cs3) ← read2 cs2
      match cs3 with
      | ':' :: cs4 => do
        let (s, cs5) ← read2 cs4
        match cs5 with
        | '.' :: cs6 => do
          let (fr, cs7) ← readFrac cs6
          some (mi, s, fr, cs7)
        | _ => some (mi, s, 0, cs5)
      | _ => some (mi, 0, 0, cs3)
    | _ => some (0, 0, 0, cs1)
  if h ≤ 23 ∧ mi ≤ 59 ∧ s ≤ 59 then
    let tus : Int := (((h * 3600 + mi * 60 + s) * 1000000 + fr : Nat) : Int)
    match rest with
    | [] => some (tus, none)
    | sign :: cs8 =>
      if sign == '+' ∨ sign == '-' then do
        let o ← parseOffset cs8
        let o := if sign == '-' then -o else o
        if -86400000000 < o ∧ o < 86400000000 then some (tus, some o) else none
      else none
  else none

/-- CPython `datetime.fromisoformat`: the first ten characters are the
date, the character at index 10 (when present) is an arbitrary separator
that is skipped without inspection, and the remainder is the time. -/
def parseDatetime (cs : List Char) : Option PyDateTime := do
  let (y, mo, dy, rest) ← parseDate10 cs
  let day_us : Int := (daysBeforeDate y mo dy : Int) * 86400000000
  match rest with
  | [] => some { wall_us := day_us, off := none }
  | _sep :: tcs =>
    match tcs with
    | [] => none
    | _ => do
      let (tus, o) ← parseTimeOff tcs
      some { wall_us := day_us + tus, off := o }

/-- `s.replace("Z", "+00:00")`: every occurrence of `Z` is replaced. -/
def replaceZ : List Char → List Char
  | [] => []
  | c :: cs =>
    if c == 'Z' then '+' :: '0' :: '0' :: ':' :: '0' :: '0' :: replaceZ cs
    else c :: replaceZ cs

def parseTs (s : String) : Option PyDateTime := parseDatetime (replaceZ s.data)

/-- Absolute position in microseconds: wall clock minus UTC offset (a naive
datetime is taken at face value; it is only ever compared to naive ones). -/
def tsUTC_us (d : PyDateTime) : Int := d.wall_us - d.off.getD 0

/-- True when both strings parse and agree on being aware/naive, i.e. their
Python difference is defined. -/
def comparableTs (s0 s1 : String) : Bool :=
  match parseTs s0, parseTs s1 with
  | some d0, some d1 => d0.off.isSome == d1.off.isSome
  | _, _ => false

/-- Signed difference `s1 - s0` in microseconds (0 when not comparable). -/
def diff_us (s0 s1 : String) : Int :=
  match parseTs s0, parseTs s1 with
  | some d0, some d1 => tsUTC_us d1 - tsUTC_us d0
  | _, _ => 0

/-- `time_tracking._calculate_duration`: parse both timestamps, subtract,
truncate toward zero to whole seconds (`int(...total_seconds())`); any
`ValueError`/`TypeError` (unparsable input, naive/aware mix) yields 0. -/
def _calculate_duration (start : String) (stop : Option String) : Int :=
  match stop with
  | none => 0
  | some stopS =>
    match parseTs start, parseTs stopS with
    | some d0, some d1 =>
      match d0.off, d1.off with
      | none, none => Int.tdiv (d1.wall_us - d0.wall_us) 1000000
      | some o0, some o1 => Int.tdiv ((d1.wall_us - o1) - (d0.wall_us - o0)) 1000000
      | _, _ => 0
    | _, _ => 0

/-! ## Data model

`Task` is the local task shape written by `todoist_sync._convert_todoist_task`
and stored by `storage.save_tasks`; `TimeEntry` is the record appended by
`time_tracking.start_task` / `record_time_entry`; `AppState` is the state
singleton of `storage.load_state` (all four keys are always present in the
states this code writes, and `dict.get` returns `None` for a missing key,
so an absent key and an explicit `null` coincide here).  A field that can
be JSON `null` is an `Option`. -/

structure TodoTask where
  id : Option String
  content : String
  description : Option String
  due_date : Option String
  priority : Int
  project_id : Option String
  labels : List String
  is_completed : Bool
  completed_at : Option String
  order : Int
  url : Option String
deriving DecidableEq, Repr

structure TimeEntry where
  entry_id : String
  task_id : String
  start_time : String
  stop_time : Option String
  duration_seconds : Int
  notes : Option String
deriving DecidableEq, Repr

structure AppState where
  active_task_id : Option String
  current_time_entry_id : Option String
  session_start : Option String
  last_sync : Option String
deriving DecidableEq, Repr

/-- The three persisted collections (`data/tasks.json`,
`data/time_tracking.json`, `data/state.json`).  Every accessor in the
source re-reads them from disk, so one record of the on-disk contents is
the whole mutable state. -/
structure Sys where
  tasks : List TodoTask
  entries : List TimeEntry
  state : AppState
deriving DecidableEq, Repr

/-- `task_state.get_task_by_id`: first task whose `id` equals the argument. -/
def get_task_by_id (tasks : List TodoTask) (task_id : String) : Option TodoTask :=
  tasks.find? (fun t => decide (t.id = some task_id))

/-- `task_state.task_exists`. -/
def task_exists (tasks : List TodoTask) (task_id : String) : Bool :=
  (get_task_by_id tasks task_id).isSome

/-- `task_state.get_active_task_id`. -/
def get_active_task_id (sys : Sys) : Option String :=
  sys.state.active_task_id

/-! ## Timer state machine (`time_tracking.py`) -/

/-- `time_tracking.start_task`.  `now` stands for `_now_iso()` and
`entry_id` for the generated `_generate_entry_id()`; the
`save_time_entries` write is modelled as succeeding. -/
def start_task (sys : Sys) (task_id now entry_id : String) : Bool × Sys :=
  if ¬ task_exists sys.tasks task_id then (false, sys)
  else if (get_active_task_id sys).isSome then (false, sys)
  else
    let entry : TimeEntry :=
      { entry_id := entry_id, task_id := task_id, start_time := now,
        stop_time := none, duration_seconds := 0, notes := none }
    (true, { sys with
              entries := sys.entries ++ [entry],
              state := { sys.state with
                          active_task_id := some task_id,
                          current_time_entry_id := some entry_id } })

/-- The loop body of `time_tracking.stop_task`: close the first entry with
the given task id and no stop time; `none` when no such entry exists. -/
def closeFirst (task_id now : String) : List TimeEntry → Option (List TimeEntry)
  | [] => none
  | e :: es =>
    if e.task_id = task_id ∧ e.stop_time = none then
      some ({ e with stop_time := some now,
                     duration_seconds := _calculate_duration e.start_time (some now) } :: es)
    else (closeFirst task_id now es).map (e :: ·)

/-- `time_tracking.stop_task`: refuse unless this task is the active one;
close its first open entry, persist, then clear both state pointers. -/
def stop_task (sys : Sys) (task_id now : String) : Bool × Sys :=
  if get_active_task_id sys ≠ some task_id then (false, sys)
  else
    match closeFirst task_id now sys.entries with
    | none => (false, sys)
    | some es =>
      (true, { sys with
                entries := es,
                state := { sys.state with
                            active_task_id := none,
                            current_time_entry_id := none } })


/-- `time_tracking.get_active_time_entry`: first entry with no stop time. -/
def get_active_time_entry (entries : List TimeEntry) : Option TimeEntry :=
  entries.find? (fun e => e.stop_time.isNone)

/-- `time_tracking.get_current_session_duration`.  The Python argument is
`entry_id: str | None = None`; an empty string is falsy and takes the
`None` branch.  With a truthy id: the first entry that matches the id and
has a truthy `start_time` and `stop_time is None` gives a live duration,
otherwise 0.  Without: the first open entry gives a live duration when its
`start_time` is truthy, otherwise 0. -/
def get_current_session_duration (entries : List TimeEntry) (entry_id : Option String)
    (now : String) : Int :=
  let truthy : Bool := match entry_id with | some s => decide (s ≠ "") | none => false
  if truthy then
    match entries.find? (fun e =>
        decide (some e.entry_id = entry_id ∧ e.start_time ≠ "" ∧ e.stop_time = none)) with
    | some e => _calculate_duration e.start_time (some now)
    | none => 0
  else
    match get_active_time_entry entries with
    | some e => if e.start_time ≠ "" then _calculate_duration e.start_time (some now) else 0
    | none => 0

/-! ## CSV export (`time_tracking._format_duration`,
`time_tracking.export_time_report_csv`) -/

/-- `time_tracking._format_duration`.  Python `//` and `%` are floor
division and floor modulus, i.e. `Int.fdiv` / `Int.fmod`. -/
def _format_duration (seconds : Int) : String :=
  if seconds = 0 then "0m"
  else
    let hours := Int.fdiv seconds 3600
    let minutes := Int.fdiv (Int.fmod seconds 3600) 60
    let remaining_seconds := Int.fmod seconds 60
    let parts : List String :=
      (if hours > 0 then [toString hours ++ "h"] else [])
        ++ (if minutes > 0 then [toString minutes ++ "m"] else [])
        ++ (if remaining_seconds > 0 ∧ hours = 0 then [toString remaining_seconds ++ "s"] else [])
    if parts.isEmpty then "0m" else String.intercalate " " parts

/-- One row of the exported report.  `stop_cell` is the raw value the code
passes to the csv writer: `entry.get("stop_time", "ACTIVE")`; the csv
module renders Python `None` as an empty cell. -/
structure CsvRow where
  task_id : String
  task_content : String
  entry_id : String
  start_time : String
  stop_cell : Option String
  duration_seconds : Int
  duration_human : String
  notes : String
deriving DecidableEq, Repr

def csv_cell (v : Option String) : String := v.getD ""

/-- `{t["id"]: t.get("content", "") for t in load_tasks()}` followed by
`tasks_dict.get(task_id, "")`: in a dict comprehension later duplicates
overwrite earlier ones, so the last matching task wins. -/
def task_content_dict (tasks : List TodoTask) (task_id : String) : String :=
  match tasks.reverse.find? (fun t => decide (t.id = some task_id)) with
  | some t => t.content
  | none => ""

/-- The per-entry body of `export_time_report_csv`'s writer loop.  Every
entry this module writes carries the `stop_time` key (possibly `null`), and
`dict.get` only falls back to its `"ACTIVE"` default for a *missing* key,
so `entry.get("stop_time", "ACTIVE")` is the stored `stop_time` value
itself.  `store_entries` is the full store (the live-duration lookup
re-reads storage, not the filtered selection). -/
def export_row (tasks : List TodoTask) (store_entries : List TimeEntry) (now : String)
    (e : TimeEntry) : CsvRow :=
  let stop_cell : Option String := e.stop_time
  let duration : Int :=
    if stop_cell = some "ACTIVE" then
      get_current_session_duration store_entries (some e.entry_id) now
    else e.duration_seconds
  { task_id := e.task_id,
    task_content := task_content_dict tasks e.task_id,
    entry_id := e.entry_id,
    start_time := e.start_time,
    stop_cell := stop_cell,
    duration_seconds := duration,
    duration_human := _format_duration duration,
    notes := e.notes.getD "" }

/-- The rows of `export_time_report_csv` (file handling abstracted away):
filter the selection when a truthy `task_id` is given, then write one row
per selected entry. -/
def export_rows (tasks : List TodoTask) (store_entries : List TimeEntry)
    (task_id : Option String) (now : String) : List CsvRow :=
  let sel :=
    match task_id with
    | some tid => if tid = "" then store_entries
                  else store_entries.filter (fun e => decide (e.task_id = tid))
    | none => store_entries
  sel.map (export_row tasks store_entries now)

/-! ## Remote sync client (`todoist_sync.py`) -/

/-- A task as returned by the remote API: each field is `none` when the
key is absent from the JSON object (`dict.get` then returns `None`; a key
explicitly set to `null` behaves identically for the fields read here).
`due` is `some dt` when the `"due"` object is present and truthy
(non-empty) with `"datetime"` field `dt`; an absent or empty `due` object
is falsy and modelled as `none`. -/
structure TodoistTask where
  id : Option String
  content : Option String
  description : Option String
  due : Option (Option String)
  priority : Option Int
  project_id : Option String
  labels : Option (List String)
  is_completed : Option Bool
  completed_at : Option String
  order : Option Int
  url : Option String
deriving DecidableEq, Repr

/-- Python `x or None` for an optional string: `None` and the empty string
(falsy) both give `None`. -/
def pyOrNone : Option String → Option String
  | some s => if s = "" then none else some s
  | none => none

/-- `todoist_sync._convert_todoist_task`. -/
def _convert_todoist_task (t : TodoistTask) : TodoTask :=
  { id := t.id,
    content := t.content.getD "",
    description := pyOrNone t.description,
    due_date := (match t.due with | some dt => dt | none => none),
    priority := t.priority.getD 1,
    project_id := t.project_id,
    labels := t.labels.getD [],
    is_completed := t.is_completed.getD false,
    completed_at := pyOrNone t.completed_at,
    order := t.order.getD 0,
    url := pyOrNone t.url }

/-- `todoist_sync.sync_tasks`.  `fetched` is what `fetch_tasks_from_api`
returned (already degraded to `[]` on any transport failure — the caller
cannot tell the difference), `write_ok` is the outcome of the
`save_tasks_locally` write, and `now` stamps `last_sync` (that
`save_state` write's result is ignored by the source and modelled as
succeeding). -/
def sync_tasks (fetched : List TodoistTask) (write_ok : Bool) (now : String)
    (sys : Sys) : Bool × Sys :=
  let tasks := if fetched.isEmpty then [] else fetched.map _convert_todoist_task
  if ¬ write_ok then (false, sys)
  else
    (true, { sys with
              tasks := tasks,
              state := { sys.state with last_sync := some now } })

/-- The loop body of `todoist_sync.mark_complete_local`: flip
`is_completed`/`completed_at` on the first task with the given id. -/
def markCompleteFirst (task_id now : String) : List TodoTask → Option (List TodoTask)
  | [] => none
  | t :: ts =>
    if t.id = some task_id then
      some ({ t with is_completed := true, completed_at := some now } :: ts)
    else (markCompleteFirst task_id now ts).map (t :: ·)

/-- `todoist_sync.mark_complete_local` (the `save_tasks` write is modelled
as succeeding). -/
def mark_complete_local (tasks : List TodoTask) (task_id now : String) :
    Bool × List TodoTask :=
  match markCompleteFirst task_id now tasks with
  | none => (false, tasks)
  | some ts => (true, ts)

/-! ## Task manager orchestration (`task_manager.py`) -/

/-- `task_manager.complete_task`.  `remote_ok` is the outcome of the
`mark_complete_remote` network call; `now_stop` and `now_complete` are the
`_now_iso()` reads inside `stop_task` and `mark_complete_local`. -/
def complete_task (sys : Sys) (task_id : String) (remote_ok : Bool)
    (now_stop now_complete : String) : Bool × Sys :=
  let success := true
  let (success, sys) :=
    if get_active_task_id sys = some task_id then
      let (ok, sys') := stop_task sys task_id now_stop
      (if ok then success else false, sys')
    else (success, sys)
  let success := if remote_ok then success else false
  let (ok_local, tasks') := mark_complete_local sys.tasks task_id now_complete
  let success := if ok_local then success else false
  (success, { sys with tasks := tasks' })

/-! ## Background scheduler (`background_sync._sync_loop`)

The loop runs on its own thread; its interaction with time is reduced to
the observable event sequence.  `stopped i` is whether the stop event is
observed set at the top of cycle `i`, `token_set` is the truthiness of the
configured token, and `faults i` is whether the `sync_tasks` call of cycle
`i` raises.  `fuel` bounds the unfolding of the unbounded `while True`. -/

inductive SyncEvent where
  /-- a `sync_tasks(token)` call that returned normally -/
  | sync : SyncEvent
  /-- a `sync_tasks(token)` call that raised; the exception is caught and
  turned into a `RuntimeWarning`, and the loop continues -/
  | syncFault : SyncEvent
  /-- `_sync_stop_event.wait(_sync_interval)` -/
  | wait : SyncEvent
deriving DecidableEq, Repr

def sync_loop_from (stopped : Nat → Bool) (token_set : Bool) (faults : Nat → Bool) :
    Nat → Nat → List SyncEvent
  | _, 0 => []
  | i, fuel + 1 =>
    if stopped i then []
    else
      (if token_set then [if faults i then SyncEvent.syncFault else SyncEvent.sync] else [])
        ++ SyncEvent.wait :: sync_loop_from stopped token_set faults (i + 1) fuel

/-! ## Shared helper facts -/

/-- Number of open entries (`stop_time == null`) in the store. -/
def openCount (es : List TimeEntry) : Nat :=
  (es.filter (fun e => e.stop_time.isNone)).length

lemma openCount_nil : openCount [] = 0 := rfl

lemma openCount_cons (e : TimeEntry) (es : List TimeEntry) :
    openCount (e :: es) = (if e.stop_time.isNone then 1 else 0) + openCount es := by
  simp only [openCount, List.filter_cons]
  cases h : e.stop_time.isNone <;> simp [h, Nat.add_comm]

lemma openCount_append_one (es : List TimeEntry) (e : TimeEntry) :
    openCount (es ++ [e]) = openCount es + (if e.stop_time.isNone then 1 else 0) := by
  simp only [openCount, List.filter_append]
  cases h : e.stop_time.isNone <;> simp [h]

lemma closeFirst_openCount (task_id now : String) :
    ∀ es es', closeFirst task_id now es = some es' → openCount es' + 1 = openCount es := by
  intro es
  induction es with
  | nil => intro es' h; simp [closeFirst] at h
  | cons e es ih =>
    intro es' h
    by_cases hc : e.task_id = task_id ∧ e.stop_time = none
    · rw [closeFirst, if_pos hc] at h
      cases h
      rw [openCount_cons, openCount_cons, hc.2]
      simp [Nat.add_comm]
    · rw [closeFirst, if_neg hc] at h
      rw [Option.map_eq_some'] at h
      obtain ⟨l, hl, rfl⟩ := h
      rw [openCount_cons, openCount_cons]
      have := ih l hl
      omega

lemma closeFirst_none_of_no_open (task_id now : String) :
    ∀ es, (∀ e ∈ es, ¬(e.task_id = task_id ∧ e.stop_time = none)) →
      closeFirst task_id now es = none := by
  intro es
  induction es with
  | nil => intro _; rfl
  | cons e es ih =>
    intro h
    rw [closeFirst, if_neg (h e (List.mem_cons_self e es))]
    rw [ih (fun e' he' => h e' (List.mem_cons_of_mem e he'))]
    rfl

/-- The single-active-timer invariant together with the state-pointer
consistency that `start_task` actually relies on: at most one open entry,
and a cleared `active_task_id` means no open entry at all. -/
def TimerInv (sys : Sys) : Prop :=
  openCount sys.entries ≤ 1
    ∧ (sys.state.active_task_id = none → openCount sys.entries = 0)

lemma start_task_timerInv (sys : Sys) (task_id now entry_id : String) (h : TimerInv sys) :
    TimerInv (start_task sys task_id now entry_id).2 := by
  unfold start_task
  by_cases h1 : task_exists sys.tasks task_id
  · by_cases h2 : (get_active_task_id sys).isSome
    · simp [h1, h2]; exact h
    · have hnone : sys.state.active_task_id = none := by
        unfold get_active_task_id at h2
        cases hx : sys.state.active_task_id with
        | none => rfl
        | some v => rw [hx] at h2; simp at h2
      have h0 : openCount sys.entries = 0 := h.2 hnone
      simp only [h1, h2, not_true, not_false_iff, if_neg, if_true]
      constructor
      · simp [openCount_append_one, h0]
      · intro hcontra; simp at hcontra
  · simp [h1]; exact h

lemma stop_task_timerInv (sys : Sys) (task_id now : String) (h : TimerInv sys) :
    TimerInv (stop_task sys task_id now).2 := by
  unfold stop_task
  by_cases h1 : get_active_task_id sys ≠ some task_id
  · simp [h1]; exact h
  · cases hc : closeFirst task_id now sys.entries with
    | none => simp [h1, hc]; exact h
    | some es =>
      have hcount := closeFirst_openCount task_id now sys.entries es hc
      have : openCount es = 0 := by
        have := h.1
        omega
      simp only [h1, hc, if_neg, not_not]
      exact ⟨by simp [this], fun _ => this⟩

/-- Interleavings of timer operations.  `now`/`entry_id` arguments carry
the nondeterministic clock reads and generated ids. -/
inductive TTOp where
  | start (task_id now entry_id : String) : TTOp
  | stop (task_id now : String) : TTOp

def applyOp (sys : Sys) : TTOp → Sys
  | TTOp.start task_id now entry_id => (start_task sys task_id now entry_id).2
  | TTOp.stop task_id now => (stop_task sys task_id now).2

def runOps (sys : Sys) (ops : List TTOp) : Sys := ops.foldl applyOp sys

lemma runOps_timerInv (ops : List TTOp) :
    ∀ sys : Sys, TimerInv sys → TimerInv (runOps sys ops) := by
  induction ops with
  | nil => intro sys h; exact h
  | cons op ops ih =>
    intro sys h
    have hstep : TimerInv (applyOp sys op) := by
      cases op with
      | start task_id now entry_id => exact start_task_timerInv sys task_id now entry_id h
      | stop task_id now => exact stop_task_timerInv sys task_id now h
    exact ih (applyOp sys op) hstep

/-! ## Concrete fixtures for witnesses and scenarios -/

def initState : AppState :=
  { active_task_id := none, current_time_entry_id := none,
    session_start := none, last_sync := none }

def sampleTask : TodoTask :=
  { id := some "T1", content := "Test task", description := none, due_date := none,
    priority := 1, project_id := none, labels := [], is_completed := false,
    completed_at := none, order := 0, url := none }

def sampleTask2 : TodoTask :=
  { id := some "T2", content := "Other task", description := none, due_date := none,
    priority := 1, project_id := none, labels := [], is_completed := false,
    completed_at := none, order := 1, url := none }

def emptySys : Sys := { tasks := [sampleTask, sampleTask2], entries := [], state := initState }

/-! ## Claim theorems -/

/-- C1: over every sequence of `start_task`/`stop_task` calls from a store
with no open entry (persistence writes succeeding, as modelled), the store
never holds two entries with `stop_time == null` simultaneously; and
`start_task` refuses to append a new open entry whenever a task is already
active (`get_active_task_id()` non-null). -/
theorem single_timer_invariant (sys : Sys) (h : openCount sys.entries = 0) :
    (∀ ops : List TTOp, openCount ((runOps sys ops).entries) ≤ 1)
      ∧ ∀ (sys' : Sys) (task_id now entry_id : String),
          (get_active_task_id sys').isSome →
          start_task sys' task_id now entry_id = (false, sys') := by
  constructor
  · intro ops
    have hinv : TimerInv sys := ⟨by omega, fun _ => h⟩
    exact (runOps_timerInv ops sys hinv).1
  · intro sys' task_id now entry_id hact
    unfold start_task
    by_cases h1 : task_exists sys'.tasks task_id
    · simp [h1, hact]
    · simp [h1]

/-- Witness for C1 at a concrete store and operation sequence: start T1,
stop it, start it again, plus a refused start while T1 runs. -/
theorem single_timer_invariant_witness :
    openCount ((runOps emptySys
      [TTOp.start "T1" "2024-01-01T00:00:00Z" "time-000000000001",
       TTOp.start "T2" "2024-01-01T00:01:00Z" "time-000000000002",
       TTOp.stop "T1" "2024-01-01T00:05:30Z",
       TTOp.start "T2" "2024-01-01T01:00:00Z" "time-000000000003"]).entries) ≤ 1 :=
  (single_timer_invariant emptySys (by decide)).1 _

/-- C6: `start_task` returns `False` and leaves the store untouched when
the task is not in the local cache or any task is already active. -/
theorem start_task_refuses_without_mutation (sys : Sys) (task_id now entry_id : String)
    (h : ¬ task_exists sys.tasks task_id ∨ (get_active_task_id sys).isSome) :
    start_task sys task_id now entry_id = (false, sys) := by
  rcases h with h | h
  · unfold start_task
    simp [h]
  · unfold start_task
    by_cases h1 : task_exists sys.tasks task_id
    · simp [h1, h]
    · simp [h1]

/-- Witness for C6: starting "T2" while "T1" is running is refused, and the
entry collection is unchanged in count. -/
theorem start_task_refuses_without_mutation_witness :
    start_task
      { tasks := [sampleTask, sampleTask2],
        entries := [{ entry_id := "time-000000000001", task_id := "T1",
                      start_time := "2024-01-01T00:00:00Z", stop_time := none,
                      duration_seconds := 0, notes := none }],
        state := { active_task_id := some "T1",
                   current_time_entry_id := some "time-000000000001",
                   session_start := none, last_sync := none } }
      "T2" "2024-01-01T00:01:00Z" "time-000000000002"
    = (false,
      { tasks := [sampleTask, sampleTask2],
        entries := [{ entry_id := "time-000000000001", task_id := "T1",
                      start_time := "2024-01-01T00:00:00Z", stop_time := none,
                      duration_seconds := 0, notes := none }],
        state := { active_task_id := some "T1",
                   current_time_entry_id := some "time-000000000001",
                   session_start := none, last_sync := none } }) :=
  start_task_refuses_without_mutation _ _ _ _ (Or.inr (by decide))

/-- C10: when `active_task_id` points at `task_id` but the store holds no
open entry for it, `stop_task` returns `False`, writes nothing, and leaves
both state pointers untouched (still set). -/
theorem stop_task_dangling_pointer_no_mutation (sys : Sys) (task_id now : String)
    (h1 : get_active_task_id sys = some task_id)
    (h2 : ∀ e ∈ sys.entries, ¬(e.task_id = task_id ∧ e.stop_time = none)) :
    stop_task sys task_id now = (false, sys)
      ∧ (stop_task sys task_id now).2.state.active_task_id = some task_id
      ∧ (stop_task sys task_id now).2.state.current_time_entry_id
          = sys.state.current_time_entry_id := by
  have hs : stop_task sys task_id now = (false, sys) := by
    unfold stop_task
    rw [closeFirst_none_of_no_open task_id now sys.entries h2]
    simp [h1]
  refine ⟨hs, ?_, ?_⟩
  · rw [hs]; exact h1
  · rw [hs]

/-- Witness for C10: active pointer set to "T1" while the only stored entry
for "T1" is already closed. -/
theorem stop_task_dangling_pointer_no_mutation_witness :
    stop_task
      { tasks := [sampleTask],
        entries := [{ entry_id := "time-000000000001", task_id := "T1",
                      start_time := "2024-01-01T00:00:00Z",
                      stop_time := some "2024-01-01T00:05:30Z",
                      duration_seconds := 330, notes := none }],
        state := { active_task_id := some "T1",
                   current_time_entry_id := some "time-000000000001",
                   session_start := none, last_sync := none } }
      "T1" "2024-01-01T01:00:00Z"
    = (false,
      { tasks := [sampleTask],
        entries := [{ entry_id := "time-000000000001", task_id := "T1",
                      start_time := "2024-01-01T00:00:00Z",
                      stop_time := some "2024-01-01T00:05:30Z",
                      duration_seconds := 330, notes := none }],
        state := { active_task_id := some "T1",
                   current_time_entry_id := some "time-000000000001",
                   session_start := none, last_sync := none } }) :=
  (stop_task_dangling_pointer_no_mutation _ "T1" _ (by decide) (by decide)).1

/-- For comparable timestamps, `_calculate_duration` is exactly the
microsecond difference truncated toward zero to whole seconds. -/
lemma calc_duration_eq_tdiv (s0 s1 : String) (hc : comparableTs s0 s1 = true) :
    _calculate_duration s0 (some s1) = Int.tdiv (diff_us s0 s1) 1000000 := by
  unfold comparableTs at hc
  unfold _calculate_duration diff_us
  cases h0 : parseTs s0 with
  | none => rw [h0] at hc; simp at hc
  | some d0 =>
    cases h1 : parseTs s1 with
    | none => rw [h0, h1] at hc; simp at hc
    | some d1 =>
      rw [h0, h1] at hc
      simp only [h0, h1]
      simp only [Option.isSome] at hc
      cases ho0 : d0.off with
      | none =>
        cases ho1 : d1.off with
        | none => simp [ho0, ho1, tsUTC_us]
        | some o1 => simp [ho0, ho1] at hc
      | some o0 =>
        cases ho1 : d1.off with
        | none => simp [ho0, ho1] at hc
        | some o1 => simp [ho0, ho1, tsUTC_us]

/-- C2: for well-formed, mutually comparable timestamps with `t1 > t0` the
computed duration is `floor(t1 - t0)` in whole seconds, and a malformed
start or stop timestamp yields duration 0 (the parse error is caught). -/
theorem duration_correctness (s0 s1 : String) :
    (comparableTs s0 s1 = true → 0 < diff_us s0 s1 →
      _calculate_duration s0 (some s1) = Int.fdiv (diff_us s0 s1) 1000000)
    ∧ ((parseTs s0 = none ∨ parseTs s1 = none) → _calculate_duration s0 (some s1) = 0) := by
  constructor
  · intro hc hpos
    rw [calc_duration_eq_tdiv s0 s1 hc]
    rw [Int.fdiv_eq_tdiv (le_of_lt hpos) (by norm_num)]
  · intro h
    unfold _calculate_duration
    rcases h with h | h
    · cases h1 : parseTs s1 <;> simp [h, h1]
    · cases h0 : parseTs s0 <;> simp [h, h0]

/-- Witness for C2: the 5m30s scenario pair for the well-formed conjunct,
and an unparsable start string for the malformed conjunct. -/
theorem duration_correctness_witness :
    _calculate_duration "2024-01-01T00:00:00Z" (some "2024-01-01T00:05:30Z")
        = Int.fdiv (diff_us "2024-01-01T00:00:00Z" "2024-01-01T00:05:30Z") 1000000
      ∧ _calculate_duration "not-a-timestamp" (some "2024-01-01T00:05:30Z") = 0 :=
  ⟨(duration_correctness _ _).1 (by decide) (by decide),
   (duration_correctness "not-a-timestamp" "2024-01-01T00:05:30Z").2 (Or.inl (by decide))⟩

/-- C9 counterexample: a stop time strictly half a second *earlier* than
the start time is a well-formed, comparable pair, yet the computed
duration is 0, not a negative integer — truncation toward zero swallows
sub-second negative differences. -/
theorem negative_subsecond_duration_is_zero :
    comparableTs "2024-01-01T00:00:01Z" "2024-01-01T00:00:00.500000Z" = true
      ∧ diff_us "2024-01-01T00:00:01Z" "2024-01-01T00:00:00.500000Z" = -500000
      ∧ _calculate_duration "2024-01-01T00:00:01Z" (some "2024-01-01T00:00:00.500000Z") = 0
      ∧ ¬ _calculate_duration "2024-01-01T00:00:01Z"
            (some "2024-01-01T00:00:00.500000Z") < 0 := by
  decide

/-- C9 (amended): for comparable timestamps with the stop at least one full
second earlier than the start, the duration is the truncation toward zero
of the difference — a negative value, not clamped — and `stop_task`
freezes that negative value into the closed entry's `duration_seconds`.
(For a sub-second negative difference the truncation yields 0.) -/
theorem duration_negative_truncation (s0 s1 : String)
    (hc : comparableTs s0 s1 = true) (hle : diff_us s0 s1 ≤ -1000000) :
    _calculate_duration s0 (some s1) = Int.tdiv (diff_us s0 s1) 1000000
      ∧ _calculate_duration s0 (some s1) < 0
      ∧ ∀ (sys : Sys) (e : TimeEntry) (task_id : String),
          sys.entries = [e] → e.task_id = task_id → e.stop_time = none →
          e.start_time = s0 → get_active_task_id sys = some task_id →
          (stop_task sys task_id s1).2.entries
            = [{ e with stop_time := some s1,
                        duration_seconds := _calculate_duration s0 (some s1) }] := by
  have heq := calc_duration_eq_tdiv s0 s1 hc
  have hneg : _calculate_duration s0 (some s1) < 0 := by
    rw [heq]
    obtain ⟨n, hn⟩ : ∃ n : Nat, diff_us s0 s1 = -(n : Int) :=
      ⟨(diff_us s0 s1).natAbs, by omega⟩
    rw [hn, Int.neg_tdiv]
    have h1e6 : (1000000 : Int) ≤ (n : Int) := by omega
    have h1 : (1 : Int) ≤ Int.tdiv (n : Int) 1000000 := by
      rw [Int.tdiv_eq_ediv (by omega) (by norm_num)]
      rw [Int.le_ediv_iff_mul_le (by norm_num)]
      omega
    omega
  refine ⟨heq, hneg, ?_⟩
  intro sys e task_id h1 h2 h3 h4 h5
  have hcf : closeFirst task_id s1 [e]
      = some [{ e with stop_time := some s1,
                       duration_seconds := _calculate_duration e.start_time (some s1) }] := by
    rw [closeFirst, if_pos ⟨h2, h3⟩]
  unfold stop_task
  rw [h5, h1, hcf, h4]
  simp

/-- Witness for C9's amended theorem: stop 1.5 seconds before start gives
the frozen duration -1. -/
theorem duration_negative_truncation_witness :
    _calculate_duration "2024-01-01T00:00:02Z" (some "2024-01-01T00:00:00.500000Z") < 0 :=
  (duration_negative_truncation "2024-01-01T00:00:02Z" "2024-01-01T00:00:00.500000Z"
    (by decide) (by decide)).2.1

/-! ## Scenario: start T1 at 00:00:00Z, stop at 00:05:30Z -/

def c4_sys0 : Sys := { tasks := [sampleTask], entries := [], state := initState }

def c4_start : Bool × Sys :=
  start_task c4_sys0 "T1" "2024-01-01T00:00:00Z" "time-000000000004"

def c4_stop : Bool × Sys :=
  stop_task c4_start.2 "T1" "2024-01-01T00:05:30Z"

/-- C4 counterexample: the scenario run produces exactly one entry with
`duration_seconds = 330`, but the human-readable rendering of 330 seconds
is not `"5m"` — `_format_duration` includes the seconds component whenever
the hours component is zero. -/
theorem scenario_duration_human_not_5m :
    c4_start.1 = true ∧ c4_stop.1 = true
      ∧ c4_stop.2.entries.map (fun e => e.duration_seconds) = [330]
      ∧ c4_stop.2.entries.map (fun e => _format_duration e.duration_seconds) ≠ ["5m"] := by
  decide

/-- C4 (amended): starting "T1" at 2024-01-01T00:00:00Z and stopping it at
2024-01-01T00:05:30Z yields exactly one TimeEntry with
`duration_seconds = 330`, rendered by the report as `"5m 30s"` (seconds
are included because the hours component is zero). -/
theorem scenario_duration_330_human_5m30s :
    c4_start.1 = true ∧ c4_stop.1 = true
      ∧ c4_stop.2.entries.length = 1
      ∧ c4_stop.2.entries.map (fun e => e.duration_seconds) = [330]
      ∧ (export_rows [sampleTask] c4_stop.2.entries none "2024-01-01T00:06:00Z").map
          (fun r => r.duration_human) = ["5m 30s"] := by
  decide

/-! ## Export of an open entry -/

def c3_entry : TimeEntry :=
  { entry_id := "time-00000000000a", task_id := "T1",
    start_time := "2024-01-01T00:00:00Z", stop_time := none,
    duration_seconds := 0, notes := none }

/-- C3: `export_time_report_csv` reads the stop column as
`entry.get("stop_time", "ACTIVE")`, whose default only applies to a
*missing* key; every open entry the system writes stores the key with
value `null`, so the exported stop cell is the raw `null` (an empty csv
cell, not `"ACTIVE"`) and — because the `stop_time == "ACTIVE"` test then
fails — the row keeps the stored placeholder `duration_seconds = 0`
instead of the live `now - start_time` duration (330 here). -/
theorem export_open_entry_misses_active_sentinel :
    (export_rows [sampleTask] [c3_entry] none "2024-01-01T00:05:30Z").map
        (fun r => (r.stop_cell, r.duration_seconds))
      = [(none, 0)]
    ∧ csv_cell c3_entry.stop_time = ""
    ∧ get_current_session_duration [c3_entry] (some c3_entry.entry_id)
        "2024-01-01T00:05:30Z" = 330 := by
  decide

/-! ## Sync overwrite -/

/-- C5: `sync_tasks` returns `False` exactly when the local task write
failed; on success the stored task collection is exactly the normalized
remote fetch result (a full overwrite of whatever was there, losing any
local-only modification); and a fetch degraded to the empty list still
reports success when the (empty) write succeeds. -/
theorem sync_tasks_overwrite (fetched : List TodoistTask) (write_ok : Bool)
    (now : String) (sys : Sys) :
    ((sync_tasks fetched write_ok now sys).1 = false ↔ write_ok = false)
      ∧ ((sync_tasks fetched write_ok now sys).1 = true →
          (sync_tasks fetched write_ok now sys).2.tasks
            = fetched.map _convert_todoist_task)
      ∧ (fetched = [] → write_ok = true → (sync_tasks fetched write_ok now sys).1 = true) := by
  unfold sync_tasks
  cases write_ok with
  | false => simp
  | true =>
    cases fetched with
    | nil => simp
    | cons t ts => simp

/-- Witness for C5: an empty (possibly failure-degraded) fetch with a
successful write reports success, and overwrites the cache with the empty
list. -/
theorem sync_tasks_overwrite_witness :
    (sync_tasks [] true "2024-01-01T00:10:00Z" emptySys).1 = true
      ∧ (sync_tasks [] true "2024-01-01T00:10:00Z" emptySys).2.tasks
          = ([] : List TodoistTask).map _convert_todoist_task :=
  ⟨(sync_tasks_overwrite [] true "2024-01-01T00:10:00Z" emptySys).2.2 rfl rfl,
   (sync_tasks_overwrite [] true "2024-01-01T00:10:00Z" emptySys).2.1
     ((sync_tasks_overwrite [] true "2024-01-01T00:10:00Z" emptySys).2.2 rfl rfl)⟩

/-! ## completeTask orchestration -/

lemma stop_task_preserves_tasks (sys : Sys) (task_id now : String) :
    (stop_task sys task_id now).2.tasks = sys.tasks := by
  unfold stop_task
  by_cases h : get_active_task_id sys ≠ some task_id
  · simp [h]
  · cases hc : closeFirst task_id now sys.entries <;> simp [h, hc]

/-- C7: `complete_task` attempts local completion unconditionally (the
final task collection is always the result of `mark_complete_local`,
whatever the remote outcome), and its boolean result is the conjunction of
all attempted sub-operations: the timer stop (only attempted when this
task is the active one), the remote completion, and the local
completion. -/
theorem complete_task_attempted_and (sys : Sys) (task_id : String) (remote_ok : Bool)
    (now_stop now_complete : String) :
    (complete_task sys task_id remote_ok now_stop now_complete).1
        = ((if get_active_task_id sys = some task_id
            then (stop_task sys task_id now_stop).1 else true)
           && remote_ok && (mark_complete_local sys.tasks task_id now_complete).1)
      ∧ (complete_task sys task_id remote_ok now_stop now_complete).2.tasks
          = (mark_complete_local sys.tasks task_id now_complete).2 := by
  unfold complete_task
  by_cases h : get_active_task_id sys = some task_id
  · cases hst : stop_task sys task_id now_stop with
    | mk ok sys' =>
      have htasks : sys'.tasks = sys.tasks := by
        have := stop_task_preserves_tasks sys task_id now_stop
        rw [hst] at this
        exact this
      cases hml : mark_complete_local sys.tasks task_id now_complete with
      | mk okl tasks' =>
        simp [h, hst, htasks, hml]
        cases ok <;> cases remote_ok <;> cases okl <;> simp
  · cases hml : mark_complete_local sys.tasks task_id now_complete with
    | mk okl tasks' =>
      simp [h, hml]
      cases remote_ok <;> cases okl <;> simp

/-! ## Background scheduler ordering -/

lemma sync_loop_length_faults_indep (stopped f1 f2 : Nat → Bool) :
    ∀ (fuel i : Nat),
      (sync_loop_from stopped true f1 i fuel).length
        = (sync_loop_from stopped true f2 i fuel).length := by
  intro fuel
  induction fuel with
  | zero => intro i; rfl
  | succ n ih =>
    intro i
    unfold sync_loop_from
    by_cases h : stopped i
    · simp [h]
    · simp [h, ih (i + 1)]

/-- C8 counterexample: with the stop signal first observed at cycle 1 and
a configured token, the loop's observable trace is `[sync, wait]` — the
very first event is the `sync_tasks` call, not the sleep: the loop body
syncs first and sleeps afterwards, so the first sync does *not* wait for
one full interval. -/
theorem sync_loop_first_event_is_sync :
    sync_loop_from (fun i => decide (1 ≤ i)) true (fun _ => false) 0 2
        = [SyncEvent.sync, SyncEvent.wait]
      ∧ (sync_loop_from (fun i => decide (1 ≤ i)) true (fun _ => false) 0 2).head?
          ≠ some SyncEvent.wait := by
  decide

/-- C8 (amended): each cycle of the started scheduler loop first invokes
`sync_tasks` — so the first sync occurs immediately, not after one
interval — and then sleeps (waking early on cancellation) for the
configured interval; a fault raised by the sync attempt is swallowed (it
only changes the sync event into a warned fault) and the cycle continues:
the trace shape is independent of where faults occur. -/
theorem sync_loop_sync_then_wait (stopped faults faults2 : Nat → Bool) (i fuel : Nat)
    (h : stopped i = false) :
    sync_loop_from stopped true faults i (fuel + 1)
        = (if faults i then SyncEvent.syncFault else SyncEvent.sync)
            :: SyncEvent.wait :: sync_loop_from stopped true faults (i + 1) fuel
      ∧ (sync_loop_from stopped true faults i (fuel + 1)).length
          = (sync_loop_from stopped true faults2 i (fuel + 1)).length := by
  constructor
  · conv_lhs => rw [sync_loop_from]
    simp [h]
  · exact sync_loop_length_faults_indep stopped faults faults2 (fuel + 1) i

/-- Witness for C8's amended theorem: a faulting first sync still yields a
full cycle followed by the continuing loop. -/
theorem sync_loop_sync_then_wait_witness :
    sync_loop_from (fun _ => false) true (fun _ => true) 0 2
        = SyncEvent.syncFault :: SyncEvent.wait
            :: sync_loop_from (fun _ => false) true (fun _ => true) 1 1
      ∧ (sync_loop_from (fun _ => false) true (fun _ => true) 0 2).length
          = (sync_loop_from (fun _ => false) true (fun _ => false) 0 2).length := by
  have h := sync_loop_sync_then_wait (fun _ => false) (fun _ => true) (fun _ => false) 0 1 rfl
  exact ⟨by simpa using h.1, h.2⟩
